import Mathlib

/-!
Shallow embedding of the railway-oriented validation-pipeline examples
(`src/example/*.py`) and proofs of the spec's testable properties.

Modelling conventions:
- Python strings are Lean `String`; `str.strip` is `String.trim`,
  `str.lower` is `String.toLower`, `len` is `String.length`.
- The mutable global `DATABASE` set is threaded explicitly as a
  `List String` state; `set.add` is `List.insert`.
- A Python exception carrying a message is an `Except String` error;
  `str(e)` is the carried message.
- Ambient side effects of steps (repository mutation, invocation
  counting) are made explicit by state passing.
-/

/-- Model of the Python builtin `str.lower`: lowercases every
character.  Total on `str`; never raises. -/
def pyLower (s : String) : String :=
  ⟨s.data.map Char.toLower⟩

/-- Model of the Python builtin `str.strip` with no argument: removes
whitespace from both ends.  Total on `str`; never raises. -/
def pyStrip (s : String) : String :=
  ⟨((s.data.dropWhile Char.isWhitespace).reverse.dropWhile
      Char.isWhitespace).reverse⟩

namespace Rop

/-- Embedding of the `Result` class of `src/example/6_0_rop.py`.
The Python class stores `value: Optional[T]`, `is_success: bool` and
`error: Optional[Exception]` as plain attributes; the constructor fills
the inactive field with `None` and performs no validation. -/
structure Result (α : Type) where
  value : Option α
  is_success : Bool
  error : Option String
  deriving DecidableEq, Repr

/-- The `Result.success` classmethod: `cls(v, True)` (error defaults to `None`). -/
def Result.success (v : α) : Result α :=
  ⟨some v, true, none⟩

/-- The `Result.failure` classmethod: `cls(None, False, e)`. -/
def Result.failure (e : String) : Result α :=
  ⟨none, false, some e⟩

/-- The `Result.bind` method of `6_0_rop.py`:
`if self.is_success: return func(self.value)` else `return self`.
The Python step receives `self.value` (an `Optional[T]`) unchecked, so
the embedded step takes an `Option α`. -/
def Result.bind (r : Result α) (func : Option α → Result α) : Result α :=
  if r.is_success then func r.value else r

/-- State-instrumented form of `Result.bind`: the step's ambient side
effects (repository mutation, an invocation counter) are made explicit
as a state component `σ`.  The control flow is exactly that of
`Result.bind`: on failure the step is not invoked, so the state cannot
change. -/
def Result.bindS (r : Result α) (func : Option α → σ → Result α × σ) (st : σ) :
    Result α × σ :=
  if r.is_success then func r.value st else (r, st)

/-- Exception-aware view of `str.strip` as called by the `6_0` code
inside `try`/`except`: since the builtin is total on `str`, the action
always succeeds and the `except` branch is unreachable. -/
def str_strip (s : String) : Except String String :=
  .ok (pyStrip s)

/-- Exception-aware view of `str.lower`; always succeeds. -/
def str_lower (s : String) : Except String String :=
  .ok (pyLower s)

/-- The `trim` step of `6_0_rop.py`: `try: return success(email.strip())
except e: return failure(e)`. -/
def trim (email : String) : Result String :=
  match str_strip email with
  | .ok v => .success v
  | .error e => .failure e

/-- The `lower` step of `6_0_rop.py`. -/
def lower (email : String) : Result String :=
  match str_lower email with
  | .ok v => .success v
  | .error e => .failure e

/-- The `validate_length` step of `6_0_rop.py`: raises
`ValueError(f"Email too short, must be ≥ {min_len}")` when
`len(email) < min_len`, which the surrounding `except` converts to a
failure; otherwise `success(email)`. -/
def validate_length (min_len : Nat) (email : String) : Result String :=
  if email.length < min_len then
    .failure ("Email too short, must be ≥ " ++ toString min_len)
  else
    .success email

end Rop

namespace Returns

/-- Embedding of the `returns` library `Result[α, β]` used by
`src/example/6_2_rop__returns.py`: a genuine two-variant sum,
`Success(v)` or `Failure(e)`. -/
inductive Result (α β : Type) where
  | Success : α → Result α β
  | Failure : β → Result α β
  deriving DecidableEq, Repr

/-- The `returns` library `bind`: `Success(v).bind(f) = f(v)`,
`Failure(e).bind(f) = Failure(e)`. -/
def Result.bind : Result α β → (α → Result γ β) → Result γ β
  | .Success v, f => f v
  | .Failure e, _ => .Failure e

/-- The `trim` step of `6_2_rop__returns.py`: `Success(email.strip())`. -/
def trim (email : String) : Result String String :=
  .Success (pyStrip email)

/-- The `lower` step of `6_2_rop__returns.py`: `Success(email.lower())`. -/
def lower (email : String) : Result String String :=
  .Success (pyLower email)

/-- The curried `validate_length` step of `6_2_rop__returns.py`:
`Failure(f"Too short, must be ≥ {min_len}")` when
`len(email) < min_len`, else `Success(email)`. -/
def validate_length (min_len : Nat) (email : String) : Result String String :=
  if email.length < min_len then
    .Failure ("Too short, must be ≥ " ++ toString min_len)
  else
    .Success email

/-- The curried `validate_available` step of `6_2_rop__returns.py`:
`Failure("Already exists")` when `email in db`, else `Success(email)`. -/
def validate_available (db : List String) (email : String) : Result String String :=
  if email ∈ db then .Failure "Already exists" else .Success email

/-- Pipeline state: the mutable `DATABASE` set together with an
invocation counter for the uniqueness step (the spec's
"short-circuit check via counter"). -/
abbrev St := List String × Nat

/-- State-threaded `bind` over a result paired with the ambient state:
on `Success` the step runs (and may touch the state), on `Failure` the
step is not invoked and the state is untouched.  This is the `returns`
`bind` with the Python program's ambient effects made explicit. -/
def bindSt (p : Result α β × St) (f : α → St → Result α β × St) : Result α β × St :=
  match p with
  | (.Success v, st) => f v st
  | (.Failure e, st) => (.Failure e, st)

/-- Stateless lift of `trim` into the state-threaded pipeline. -/
def trimSt (email : String) (st : St) : Result String String × St :=
  (trim email, st)

/-- Stateless lift of `lower`. -/
def lowerSt (email : String) (st : St) : Result String String × St :=
  (lower email, st)

/-- Stateless lift of `validate_length`. -/
def validate_lengthSt (min_len : Nat) (email : String) (st : St) :
    Result String String × St :=
  (validate_length min_len email, st)

/-- Lift of `validate_available` reading the repository from the state;
it bumps the invocation counter so that short-circuiting is observable. -/
def validate_availableSt (email : String) : St → Result String String × St :=
  fun (db, cnt) => (validate_available db email, (db, cnt + 1))

/-- The curried `insert` step of `6_2_rop__returns.py`: `db.add(email)`
then `Success(f"Signup successful: {email}")`.  The mutation of the
shared `DATABASE` is explicit in the state. -/
def insertSt (email : String) : St → Result String String × St :=
  fun (db, cnt) => (.Success ("Signup successful: " ++ email), (db.insert email, cnt))

/-- The `signup` pipeline of `6_2_rop__returns.py`:
`trim(email).bind(lower).bind(validate_length(5))
.bind(validate_available(DATABASE)).bind(insert(DATABASE))`,
with the global `DATABASE` threaded as state. -/
def signup (email : String) (st : St) : Result String String × St :=
  bindSt (bindSt (bindSt (bindSt (trimSt email st) lowerSt)
    (validate_lengthSt 5)) validate_availableSt) insertSt

end Returns

/-- The `apply_steps` helper of
`src/example/1_2_func_as_first_class_citizen.py`: applies plain
`str -> str` steps left to right. -/
def apply_steps (value : String) (steps : List (String → String)) : String :=
  steps.foldl (fun v fn => fn v) value

/-- Modelled from the spec: the pipeline assembler `assemble` (§4.4) is
not a named function in the source — pipelines there are hand-chained
via `.bind` (`6_0`, `6_2`) or applied by `apply_steps` over plain
functions (`1_2`).  Following the spec's words, `assemble` folds `bind`
left-to-right over the steps starting from the input wrapped as an
initial `Success`. -/
def assemble (steps : List (α → Returns.Result α β)) : α → Returns.Result α β :=
  fun x => steps.foldl (fun r s => r.bind s) (.Success x)

namespace Toolz

/-- The curried `safe_cleanup` adapter of
`src/example/5_0_error__toolz_try_catch.py`: runs the wrapped step and,
if it raises with message `m`, re-raises
`ValueError(f"Cleanup step failed on '{email}': {m}")`.  Raising is
embedded as `Except.error` carrying the message. -/
def safe_cleanup (step : String → Except String String) (email : String) :
    Except String String :=
  match step email with
  | .ok v => .ok v
  | .error m => .error ("Cleanup step failed on '" ++ email ++ "': " ++ m)

/-- The curried `min_length` predicate of
`src/example/2_3_currying__toolz.py`: `len(email) >= n`. -/
def min_length (n : Nat) (email : String) : Bool :=
  decide (email.length ≥ n)

/-- The curried `not_in` predicate of `2_3_currying__toolz.py`:
`email not in db`. -/
def not_in (db : List String) (email : String) : Bool :=
  !(db.contains email)

end Toolz

/-- Claim C1: for every Failure result and every step, `bind` returns the
Failure unchanged and the step is never invoked — in the instrumented
`bindS` the ambient state (e.g. an invocation counter) is untouched, so
no step effect can have occurred. -/
theorem bind_short_circuits_failure :
    ∀ (α σ : Type) (e : String) (s : Option α → Rop.Result α)
      (sS : Option α → σ → Rop.Result α × σ) (st : σ),
      Rop.Result.bind (Rop.Result.failure e) s = Rop.Result.failure e ∧
      Rop.Result.bindS (Rop.Result.failure e) sS st = (Rop.Result.failure e, st) :=
  fun _ _ _ _ _ _ => ⟨rfl, rfl⟩

/-- Claim C2: `bind` is associative — for every result `r` and steps
`f`, `g`, `bind(bind(r, f), g) = bind(r, fun x => bind(f(x), g))`. -/
theorem bind_assoc :
    ∀ (α : Type) (r : Rop.Result α) (f g : Option α → Rop.Result α),
      (r.bind f).bind g = r.bind (fun x => (f x).bind g) := by
  intro α r f g
  rcases r with ⟨v, b, e⟩
  cases b <;> simp [Rop.Result.bind]

/-- Claim C3: the signup pipeline on `"test@example.com"` (already
registered) returns `Failure "Already exists"` with the repository
unchanged, and on `"abc"` returns `Failure "Too short, must be ≥ 5"`
with the repository unchanged and the uniqueness step never invoked
(its invocation counter stays at 0). -/
theorem signup_failure_scenarios :
    Returns.signup "test@example.com" (["test@example.com"], 0) =
      (Returns.Result.Failure "Already exists", (["test@example.com"], 1)) ∧
    Returns.signup "abc" (["test@example.com"], 0) =
      (Returns.Result.Failure "Too short, must be ≥ 5", (["test@example.com"], 0)) :=
  ⟨by decide, by decide⟩

/-- Claim C4 counterexample: the signup pipeline on `"   new@ex.com  "`
succeeds, but the success value is `"Signup successful: new@ex.com"`
(produced by `insert`), not the cleaned email `"new@ex.com"` the claim
states. -/
theorem signup_success_value_counterexample :
    (Returns.signup "   new@ex.com  " (["test@example.com"], 0)).1 =
      Returns.Result.Success "Signup successful: new@ex.com" ∧
    (Returns.signup "   new@ex.com  " (["test@example.com"], 0)).1 ≠
      Returns.Result.Success "new@ex.com" :=
  ⟨by decide, by decide⟩

/-- Claim C4 amended: the signup pipeline on `"   new@ex.com  "` returns
`Success "Signup successful: new@ex.com"` and afterwards the repository
contains `"new@ex.com"` (with the uniqueness step invoked once). -/
theorem signup_success_scenario_amended :
    Returns.signup "   new@ex.com  " (["test@example.com"], 0) =
      (Returns.Result.Success "Signup successful: new@ex.com",
        (["new@ex.com", "test@example.com"], 1)) ∧
    "new@ex.com" ∈ (Returns.signup "   new@ex.com  " (["test@example.com"], 0)).2.1 :=
  ⟨by decide, by decide⟩

/-- Claim C5: assembling the empty sequence of steps yields the identity
pipeline: for every input `x`, `assemble [] x = Success x`. -/
theorem assemble_nil_identity :
    ∀ (α β : Type) (x : α),
      assemble ([] : List (α → Returns.Result α β)) x = Returns.Result.Success x :=
  fun _ _ _ => rfl

/-- Claim C6 counterexample: reading the wrong-variant field of the
`6_0` `Result` does not signal a defect — the constructor fills the
inactive field with `None` and attribute access silently returns that
default: `failure("boom").value` is `none` and `success("ok").error` is
`none`. -/
theorem wrong_variant_access_counterexample :
    (Rop.Result.failure "boom" : Rop.Result String).value = none ∧
    (Rop.Result.success "ok" : Rop.Result String).error = none :=
  ⟨rfl, rfl⟩

/-- Claim C6 amended: reading the wrong-variant field of a `Result`
silently returns `None` (the fields are `Optional` and the constructor
defaults the inactive one to `None`); no assertion or panic occurs. -/
theorem wrong_variant_access_returns_none :
    ∀ (α : Type) (e : String) (v : α),
      (Rop.Result.failure e : Rop.Result α).value = none ∧
      (Rop.Result.success v).error = none :=
  fun _ _ _ => ⟨rfl, rfl⟩

/-- Claim C7: when the wrapped step fails with message `m`,
`safe_cleanup` produces a failure whose message is exactly the wrapping
context followed by `m` — so it contains both, and the original message
is never discarded or replaced. -/
theorem safe_cleanup_preserves_message :
    ∀ (step : String → Except String String) (email m : String),
      step email = .error m →
      Toolz.safe_cleanup step email =
        .error ("Cleanup step failed on '" ++ email ++ "': " ++ m) ∧
      ∃ ctx, Toolz.safe_cleanup step email = .error (ctx ++ m) := by
  intro step email m h
  refine ⟨by simp [Toolz.safe_cleanup, h], "Cleanup step failed on '" ++ email ++ "': ", ?_⟩
  simp [Toolz.safe_cleanup, h]

/-- Witness for C7 at a concrete failing step. -/
theorem safe_cleanup_preserves_message_witness :
    Toolz.safe_cleanup (fun _ => Except.error "boom") "x" =
      .error ("Cleanup step failed on '" ++ "x" ++ "': " ++ "boom") ∧
    ∃ ctx, Toolz.safe_cleanup (fun _ => Except.error "boom") "x" = .error (ctx ++ "boom") :=
  safe_cleanup_preserves_message (fun _ => Except.error "boom") "x" "boom" rfl

/-- Claim C8: curry stability — two steps built by applying a curried
constructor to equal configurations return the same result on every
input (two-run determinism; in this embedding steps are pure functions
of their input and explicit state, so no hidden mutable state can
distinguish the two constructions). -/
theorem curry_stability :
    ∀ (n₁ n₂ : Nat) (db₁ db₂ : List String), n₁ = n₂ → db₁ = db₂ →
      ∀ email : String,
        Toolz.min_length n₁ email = Toolz.min_length n₂ email ∧
        Toolz.not_in db₁ email = Toolz.not_in db₂ email ∧
        Returns.validate_length n₁ email = Returns.validate_length n₂ email ∧
        Returns.validate_available db₁ email = Returns.validate_available db₂ email := by
  intro n₁ n₂ db₁ db₂ h1 h2 email
  subst h1; subst h2
  exact ⟨rfl, rfl, rfl, rfl⟩

/-- Witness for C8 at a concrete configuration and input. -/
theorem curry_stability_witness :
    (5 : Nat) = 5 ∧ (["test@example.com"] : List String) = ["test@example.com"] ∧
    (Toolz.min_length 5 "abc" = Toolz.min_length 5 "abc" ∧
     Toolz.not_in ["test@example.com"] "abc" = Toolz.not_in ["test@example.com"] "abc" ∧
     Returns.validate_length 5 "abc" = Returns.validate_length 5 "abc" ∧
     Returns.validate_available ["test@example.com"] "abc" =
       Returns.validate_available ["test@example.com"] "abc") :=
  ⟨rfl, rfl, curry_stability 5 5 ["test@example.com"] ["test@example.com"] rfl rfl "abc"⟩

/-- Claim C9: the `6_0` cleanup steps `trim` and `lower` are total and
never fail — for every string they return `Success` of the stripped
(resp. lowercased) input; the `except` branch converting an exception
to a failure is unreachable because the underlying builtins are total. -/
theorem trim_lower_total :
    ∀ email : String,
      Rop.trim email = Rop.Result.success (pyStrip email) ∧
      Rop.lower email = Rop.Result.success (pyLower email) :=
  fun _ => ⟨rfl, rfl⟩

/-- Claim C10: `validate_length` is an exact boundary check that passes
the value through unchanged — it returns `Success email` (the same
email) if and only if `min_len ≤ length email`, and a Failure
otherwise; this holds for the `6_2` step and, with its own message, for
the `6_0` step. -/
theorem validate_length_boundary :
    ∀ (min_len : Nat) (email : String),
      (Returns.validate_length min_len email = Returns.Result.Success email ↔
        min_len ≤ email.length) ∧
      (email.length < min_len →
        Returns.validate_length min_len email =
          Returns.Result.Failure ("Too short, must be ≥ " ++ toString min_len)) ∧
      (Rop.validate_length min_len email = Rop.Result.success email ↔
        min_len ≤ email.length) := by
  intro n email
  refine ⟨⟨fun h => ?_, fun h => ?_⟩, fun h => ?_, ⟨fun h => ?_, fun h => ?_⟩⟩
  · by_contra hn
    have hlt : email.length < n := by omega
    simp [Returns.validate_length, hlt] at h
  · have hge : ¬ email.length < n := by omega
    simp [Returns.validate_length, hge]
  · simp [Returns.validate_length, h]
  · by_contra hn
    have hlt : email.length < n := by omega
    simp [Rop.validate_length, hlt, Rop.Result.failure, Rop.Result.success] at h
  · have hge : ¬ email.length < n := by omega
    simp [Rop.validate_length, hge]

/-- Witness for C10: the boundary theorem applied at `min_len = 5` with
the too-short email `"abc"`. -/
theorem validate_length_boundary_witness :
    "abc".length < 5 ∧
    Returns.validate_length 5 "abc" =
      Returns.Result.Failure ("Too short, must be ≥ " ++ toString 5) :=
  ⟨by decide, (validate_length_boundary 5 "abc").2.1 (by decide)⟩
